import Mathlib

/-!
Verification of the marketplace-scraper repository (src/main.py, src/block.py,
src/exceptions.py) against its natural-language specification.

Python strings are modelled as `List Char` (the code only manipulates ASCII
text; Python's `str.isdigit`, `str.strip`, `in` and `split` agree with the
ASCII-level models below on such text).  Python exceptions are modelled with
an `Except PyError` monad: `exceptions.py` defines `ParseError` (and
`CredentialsError`, not needed by the claims), and the builtins `ValueError`
(raised by `int("")`) and `IndexError` (raised by `l[0]` on an empty list)
are the other exception kinds reachable inside the extraction code.

BeautifulSoup is a third-party collaborator: `soup.select_one(sel)` returns
the first matching node or `None`, `node.get(attr, None)` returns `None`, a
string, or a list of strings (multi-valued attributes), and `node.text` is
the node's concatenated text.  A listing fragment is therefore embedded as
the record of the outcomes of the five fixed selector lookups that
`parse_listing_with_soup` performs.
-/

/-- Python string model: a list of characters. -/
abbrev PyStr := List Char

/-- Exception kinds reachable in the embedded code.  `parseError` is
`exceptions.ParseError`; `valueError` is the builtin `ValueError` raised by
`int` on a digitless string; `indexError` is the builtin `IndexError`
raised by indexing an empty attribute list. -/
inductive PyError where
  | parseError : PyError
  | valueError : PyError
  | indexError : PyError
deriving DecidableEq, Repr

/-- A BeautifulSoup attribute value: either a plain string or a list of
strings (multi-valued attribute). -/
inductive AttrVal where
  | str : PyStr → AttrVal
  | list : List PyStr → AttrVal
deriving DecidableEq, Repr

/-- An element node as seen through `node.get("src"/"href", None)`: the
attribute is either absent or an `AttrVal`. -/
structure AttrNode where
  attr : Option AttrVal
deriving DecidableEq, Repr

/-- A text-bearing node as seen through `node.text`. -/
structure TextNode where
  text : PyStr
deriving DecidableEq, Repr

/-- The outcome of the five `soup.select_one` lookups that
`parse_listing_with_soup` performs on one listing fragment
(src/main.py lines 292-296: IMAGE_SELECTOR, TITLE_SELECTOR, PRICE_SELECTOR,
URL_SELECTOR, LOCATION_SELECTOR), each `none` when the selector matches
nothing. -/
structure Fragment where
  image_node : Option AttrNode
  title_node : Option TextNode
  price_node : Option TextNode
  link_node : Option AttrNode
  location_node : Option TextNode
deriving DecidableEq, Repr

/-- The `Listing` dataclass of src/main.py lines 44-57, field for field and
in declaration order.  `price` is a Python `int`, hence `Int`;
`description` defaults to `None`. -/
structure Listing where
  image_url : PyStr
  title : PyStr
  price : Int
  post_url : PyStr
  location : PyStr
  description : Option PyStr := none
deriving DecidableEq, Repr

/-- Python `str.isspace` on the ASCII whitespace characters, the set
`str.strip()` removes. -/
def pyIsSpace (c : Char) : Bool :=
  c = ' ' || c = '\t' || c = '\n' || c = '\r' || c = '\x0b' || c = '\x0c'

/-- Python `s.strip()`: remove leading and trailing whitespace. -/
def pyStrip (s : PyStr) : PyStr :=
  ((s.dropWhile pyIsSpace).reverse.dropWhile pyIsSpace).reverse

/-- Python `s.split('?', 1)[0]`: the prefix of `s` before the first
occurrence of the separator, or all of `s` if the separator is absent. -/
def pySplitHeadQ : PyStr → PyStr
  | [] => []
  | c :: cs => if c = '?' then [] else c :: pySplitHeadQ cs

/-- The fixed origin prepended by `clean_listing_url`. -/
def FB_ORIGIN : PyStr := "https://www.facebook.com".toList

/-- src/main.py lines 142-152: strip everything from the first question mark
onward and prepend the fixed origin. -/
def clean_listing_url (url : PyStr) : PyStr :=
  FB_ORIGIN ++ pySplitHeadQ url

/-- Numeric value of an ASCII digit character. -/
def digitVal (c : Char) : Nat := c.toNat - 48

/-- src/main.py lines 155-168: keep only digit characters, then `int(...)`.
Python `int` on the empty string raises `ValueError`; on a non-empty
all-digit string it returns the base-10 value, modelled by the left fold. -/
def convert_price_to_int (price : PyStr) : Except PyError Int :=
  match price.filter Char.isDigit with
  | [] => .error .valueError
  | c :: cs =>
    .ok (Int.ofNat ((c :: cs).foldl (fun a c => 10 * a + digitVal c) 0))

/-- src/main.py lines 301-306 / 318-322: a found attribute that is a list is
replaced by its first element (`image[0]`), raising `IndexError` when the
list is empty; a plain string is kept.  (The second `image[0] if
isinstance(image, list) else image` on line 306 is a no-op after line 303
already replaced a list by its first element.) -/
def firstAttr : AttrVal → Except PyError PyStr
  | .str s => .ok s
  | .list [] => .error .indexError
  | .list (s :: _) => .ok s

/-- Python truthiness of an `Optional[str]`: `None` and the empty string are
falsy. -/
def truthyS : Option PyStr → Bool
  | none => false
  | some s => !s.isEmpty

/-- Python truthiness of an `Optional[int]`: `None` and `0` are falsy. -/
def truthyI : Option Int → Bool
  | none => false
  | some n => decide (n ≠ 0)

/-- src/main.py lines 301-307: the image stage of `parse_listing_with_soup`
(select, `get("src", None)`, first element of a list value). -/
def image_of (frag : Fragment) : Except PyError (Option PyStr) :=
  match frag.image_node with
  | none => .ok none
  | some node =>
    match node.attr with
    | none => .ok none
    | some v => (firstAttr v).map some

/-- src/main.py lines 309-311: `title_locator.text.strip()` when the title
node was found. -/
def title_of (frag : Fragment) : Option PyStr :=
  frag.title_node.map (fun n => pyStrip n.text)

/-- src/main.py lines 313-314: the stripped price text when the price node
was found. -/
def price_text_of (frag : Fragment) : Option PyStr :=
  frag.price_node.map (fun n => pyStrip n.text)

/-- src/main.py line 315: `convert_price_to_int(price) if price else None`.
An empty price text is falsy and yields `None`; a non-empty one is
converted, which raises `ValueError` when it has no digit. -/
def price_of (frag : Fragment) : Except PyError (Option Int) :=
  match price_text_of frag with
  | none => .ok none
  | some s => if s.isEmpty then .ok none else (convert_price_to_int s).map some

/-- src/main.py lines 318-322: the href stage (select, `get("href", None)`,
first element of a list value). -/
def href_of (frag : Fragment) : Except PyError (Option PyStr) :=
  match frag.link_node with
  | none => .ok none
  | some node =>
    match node.attr with
    | none => .ok none
    | some v => (firstAttr v).map some

/-- src/main.py line 323: `clean_listing_url(link) if link else None`. -/
def link_of (frag : Fragment) : Except PyError (Option PyStr) :=
  (href_of frag).map fun h =>
    match h with
    | none => none
    | some s => if s.isEmpty then none else some (clean_listing_url s)

/-- src/main.py lines 326-327: `location_locator.text.strip()` when the
location node was found. -/
def location_of (frag : Fragment) : Option PyStr :=
  frag.location_node.map (fun n => pyStrip n.text)

/-- src/main.py lines 278-333, `parse_listing_with_soup`.  The stages run in
source order (image, title, price, link, location); only the image, price
and link stages can raise, so the pure title and location extractions are
folded into the final step.  Line 330's
`if not all([image, title, price, link, location])` uses Python truthiness
(`None`, the empty string and the integer `0` are all falsy) and raises
`ParseError`; otherwise line 333 constructs the `Listing` with
`description` left at its `None` default. -/
def parse_listing_with_soup (frag : Fragment) : Except PyError Listing :=
  match image_of frag with
  | .error e => .error e
  | .ok image =>
    match price_of frag with
    | .error e => .error e
    | .ok price =>
      match link_of frag with
      | .error e => .error e
      | .ok link =>
        if truthyS image && truthyS (title_of frag) && truthyI price &&
            truthyS link && truthyS (location_of frag) then
          .ok { image_url := image.getD [], title := (title_of frag).getD [],
                price := price.getD 0, post_url := link.getD [],
                location := (location_of frag).getD [], description := none }
        else .error .parseError

/-- src/main.py lines 259-267, the per-listing loop body of
`fetch_marketplace_listings`: each fragment is parsed inside
`try: ... except ParseError:`, so a `ParseError` skips the fragment and the
loop continues, while any other exception propagates and aborts the whole
batch (nothing is returned). -/
def parse_batch : List Fragment → Except PyError (List Listing)
  | [] => .ok []
  | f :: fs =>
    match parse_listing_with_soup f with
    | .ok l => (parse_batch fs).map (fun r => l :: r)
    | .error .parseError => parse_batch fs
    | .error e => .error e

/-- src/block.py lines 8-19: resource types blocked unconditionally. -/
def BLOCK_RESOURCE_TYPES : List PyStr :=
  ["beacon".toList, "csp_report".toList, "font".toList, "image".toList,
   "imageset".toList, "media".toList, "object".toList, "texttrack".toList,
   "xhr".toList, "eventsource".toList]

/-- src/block.py lines 22-32: URL substrings that cause blocking. -/
def BLOCK_RESOURCE_NAMES : List PyStr :=
  ["adzerk".toList, "analytics".toList, "cdn.api.twitter".toList,
   "doubleclick".toList, "exelator".toList, "fontawesome".toList,
   "google".toList, "google-analytics".toList, "googletagmanager".toList]

/-- The filter's decision: `route.abort()` is `block`, `route.continue_()`
is `allow`. -/
inductive Decision where
  | block : Decision
  | allow : Decision
deriving DecidableEq, Repr

/-- A request descriptor as the filter sees it: `route.request.resource_type`
and `route.request.url`. -/
structure Request where
  resource_type : PyStr
  url : PyStr
deriving DecidableEq, Repr

/-- src/block.py lines 35-45, `blocking_intercept`: abort when the resource
type is in `BLOCK_RESOURCE_TYPES`; else abort when any entry of
`BLOCK_RESOURCE_NAMES` is a substring of the URL (Python `key in url`,
case-sensitive); else continue. -/
def blocking_intercept (r : Request) : Decision :=
  if r.resource_type ∈ BLOCK_RESOURCE_TYPES then .block
  else if BLOCK_RESOURCE_NAMES.any (fun key => decide (key <:+: r.url)) then .block
  else .allow

/-- A JSON document value, the shape produced by the standard library
`json.dumps` and recovered by a generic JSON reader (`json.loads`): the two
are mutually inverse on this document model, so serialization round-trips
are settled on it.  Objects carry their key order (Python dicts preserve
insertion order). -/
inductive JVal where
  | null : JVal
  | num : Int → JVal
  | str : PyStr → JVal
  | arr : List JVal → JVal
  | obj : List (PyStr × JVal) → JVal
deriving Repr

/-- `listing.__dict__` as serialized by `json.dumps`: the dataclass fields
in declaration order; `None` becomes JSON `null`, strings become JSON
strings, the `int` price a JSON number. -/
def listing_dict (l : Listing) : List (PyStr × JVal) :=
  [("image_url".toList, .str l.image_url),
   ("title".toList, .str l.title),
   ("price".toList, .num l.price),
   ("post_url".toList, .str l.post_url),
   ("location".toList, .str l.location),
   ("description".toList,
      match l.description with
      | none => JVal.null
      | some d => JVal.str d)]

/-- src/main.py lines 336-346, `listings_to_json`: the JSON document is the
array of the listings' `__dict__` objects, in list order.  (`indent=4`
affects only whitespace of the textual form, not the parsed document.) -/
def listings_to_json (listings : List Listing) : JVal :=
  .arr (listings.map (fun l => .obj (listing_dict l)))

/-- Generic-reader access to an object's value at a key. -/
def jLookup (k : PyStr) (kvs : List (PyStr × JVal)) : Option JVal :=
  (kvs.find? (fun p => p.1 == k)).map Prod.snd

/-- Generic-reader view of the top-level array's length. -/
def jArrLen : JVal → Option Nat
  | .arr os => some os.length
  | _ => none

/-- Generic-reader access to the mapping at index `i` of the top-level
array. -/
def jObjAt (v : JVal) (i : Nat) : Option (List (PyStr × JVal)) :=
  match v with
  | .arr os =>
    (os[i]?).bind fun o =>
      match o with
      | .obj kvs => some kvs
      | _ => none
  | _ => none

/-- The key set of a serialized Listing, in the order `json.dumps` emits
them (dataclass field declaration order). -/
def JSON_KEYS : List PyStr :=
  ["image_url".toList, "title".toList, "price".toList,
   "post_url".toList, "location".toList, "description".toList]

deriving instance DecidableEq for Except

/-- A fragment on which all five lookups succeed: the worked example of the
spec (price text `$500`, relative link `/marketplace/item/42?x=1`). -/
def fragEx : Fragment :=
  { image_node := some { attr := some (.str "https://cdn.example/img.jpg".toList) },
    title_node := some { text := "Mountain Bike".toList },
    price_node := some { text := "$500".toList },
    link_node := some { attr := some (.str "/marketplace/item/42?x=1".toList) },
    location_node := some { text := "Toronto, ON".toList } }

/-- The Listing that `parse_listing_with_soup` produces from `fragEx`. -/
def exListing : Listing :=
  { image_url := "https://cdn.example/img.jpg".toList,
    title := "Mountain Bike".toList,
    price := 500,
    post_url := "https://www.facebook.com/marketplace/item/42".toList,
    location := "Toronto, ON".toList,
    description := none }

/-- `fragEx` with a non-empty price text that has no digit character. -/
def fragNoDigit : Fragment :=
  { fragEx with price_node := some { text := "Free".toList } }

/-- Another all-lookups-found fragment whose price text has no digit. -/
def fragNA : Fragment :=
  { fragEx with price_node := some { text := "N/A".toList } }

/-- `fragEx` with the price element missing (`select_one` returns None). -/
def fragNoPrice : Fragment :=
  { fragEx with price_node := none }

/-- `fragEx` with price text `$0`: all five lookups succeed, every value is
non-empty, the price text contains a digit, and the parsed price is 0. -/
def fragZero : Fragment :=
  { fragEx with price_node := some { text := "$0".toList } }

/-!  Helper lemmas shared by the claim theorems. -/

theorem pySplitHeadQ_eq_takeWhile (s : PyStr) :
    pySplitHeadQ s = s.takeWhile (fun c => c != '?') := by
  induction s with
  | nil => rfl
  | cons c cs ih =>
    by_cases hc : c = '?'
    · simp [pySplitHeadQ, List.takeWhile, hc]
    · have hb : (c != '?') = true := by simp [hc]
      simp [pySplitHeadQ, List.takeWhile, hc, hb, ih]

theorem takeWhile_neq_of_not_mem (s : PyStr) (h : '?' ∉ s) :
    s.takeWhile (fun c => c != '?') = s := by
  induction s with
  | nil => rfl
  | cons c cs ih =>
    simp only [List.mem_cons, not_or] at h
    have hc : ¬c = '?' := fun he => h.1 he.symm
    have hb : (c != '?') = true := by simp [hc]
    simp [List.takeWhile, hb, ih h.2]

theorem foldl_base10 (l : List Nat) (a : Nat) :
    l.foldl (fun x d => 10 * x + d) a =
      a * 10 ^ l.length + Nat.ofDigits 10 l.reverse := by
  induction l generalizing a with
  | nil => simp [Nat.ofDigits]
  | cons d l ih =>
    simp only [List.foldl_cons, List.reverse_cons, List.length_cons, ih,
      Nat.ofDigits_append, Nat.ofDigits, List.length_reverse]
    push_cast
    ring

theorem convert_price_eq_ofDigits (s : PyStr) (h : s.filter Char.isDigit ≠ []) :
    convert_price_to_int s =
      .ok (Int.ofNat
        (Nat.ofDigits 10 (((s.filter Char.isDigit).map digitVal).reverse))) := by
  unfold convert_price_to_int
  cases hd : s.filter Char.isDigit with
  | nil => exact absurd hd h
  | cons c cs =>
    have : (c :: cs).foldl (fun a c => 10 * a + digitVal c) 0 =
        Nat.ofDigits 10 (((c :: cs).map digitVal).reverse) := by
      rw [← List.foldl_map digitVal (fun x d => 10 * x + d)]
      simpa using foldl_base10 ((c :: cs).map digitVal) 0
    simp [this]

/-- C6: for every price string with at least one digit character,
`convert_price_to_int` returns the base-10 value denoted by the digit
characters in original order (`Nat.ofDigits 10` reads little-endian, hence
the reverse); for every price string with no digit character it fails with
`ValueError` rather than returning zero. -/
theorem C6_convert_price (s : PyStr) :
    ((∃ c ∈ s, c.isDigit = true) →
      convert_price_to_int s =
        .ok (Int.ofNat
          (Nat.ofDigits 10 (((s.filter Char.isDigit).map digitVal).reverse)))) ∧
    ((∀ c ∈ s, c.isDigit = false) →
      convert_price_to_int s = .error .valueError) := by
  constructor
  · rintro ⟨c, hc, hd⟩
    exact convert_price_eq_ofDigits s
      (List.ne_nil_of_mem (List.mem_filter.mpr ⟨hc, hd⟩))
  · intro h
    have hnil : s.filter Char.isDigit = [] := by
      rw [List.filter_eq_nil_iff]
      intro c hc
      simp [h c hc]
    unfold convert_price_to_int
    simp [hnil]

/-- Witness for C6 at the spec's own examples. -/
theorem C6_convert_price_witness :
    convert_price_to_int "$CA1,000".toList = .ok 1000 ∧
    convert_price_to_int "1234".toList = .ok 1234 ∧
    convert_price_to_int "$CA".toList = .error .valueError := by
  refine ⟨?_, ?_, ?_⟩
  · have h := (C6_convert_price "$CA1,000".toList).1 ⟨'1', by decide, by decide⟩
    rw [h]; decide
  · have h := (C6_convert_price "1234".toList).1 ⟨'1', by decide, by decide⟩
    rw [h]; decide
  · exact (C6_convert_price "$CA".toList).2 (by decide)

/-- C7: for every input, `clean_listing_url` returns the fixed origin
prepended to the prefix of the input before its first question mark; an
input with no question mark passes through unchanged apart from the prefix.
The function is total by type. -/
theorem C7_clean_listing_url (u : PyStr) :
    clean_listing_url u = FB_ORIGIN ++ u.takeWhile (fun c => c != '?') ∧
    ('?' ∉ u → clean_listing_url u = FB_ORIGIN ++ u) := by
  constructor
  · unfold clean_listing_url
    rw [pySplitHeadQ_eq_takeWhile]
  · intro h
    unfold clean_listing_url
    rw [pySplitHeadQ_eq_takeWhile, takeWhile_neq_of_not_mem u h]

/-- Witness for C7 at the spec's own examples. -/
theorem C7_clean_listing_url_witness :
    clean_listing_url "/marketplace/item/123?ref=abc".toList =
      "https://www.facebook.com/marketplace/item/123".toList ∧
    '?' ∉ "/marketplace/item/123".toList ∧
    clean_listing_url "/marketplace/item/123".toList =
      "https://www.facebook.com/marketplace/item/123".toList := by
  refine ⟨?_, by decide, ?_⟩
  · have h := (C7_clean_listing_url ("/marketplace/item/123?ref=abc".toList)).1
    rw [h]; decide
  · have h := (C7_clean_listing_url ("/marketplace/item/123".toList)).2 (by decide)
    rw [h]; decide

/-- C10: `clean_listing_url` is not idempotent: applying it twice to
`/marketplace/item/123` differs from applying it once, and an
already-absolute URL gets the origin prepended a second time, so the result
contains the origin twice (here: the doubled origin as a substring). -/
theorem C10_clean_url_not_idempotent :
    clean_listing_url (clean_listing_url "/marketplace/item/123".toList) ≠
      clean_listing_url "/marketplace/item/123".toList ∧
    clean_listing_url "https://www.facebook.com/marketplace/item/123".toList =
      "https://www.facebook.comhttps://www.facebook.com/marketplace/item/123".toList ∧
    (FB_ORIGIN ++ FB_ORIGIN) <:+:
      clean_listing_url "https://www.facebook.com/marketplace/item/123".toList := by
  refine ⟨by decide, by decide, ?_⟩
  exact ⟨[], "/marketplace/item/123".toList, by decide⟩

/-- C1: the code contradicts the claim.  On a fragment whose price text is
non-empty but digitless (`fragNoDigit`, price text `Free`), the numeric
conversion raises the builtin `ValueError`, which is not `ParseError`, so
the per-listing `except ParseError` boundary of the batch loop does not
catch it and the whole batch is aborted instead of continuing. -/
theorem C1_nondigit_price_aborts_batch :
    parse_listing_with_soup fragNoDigit = .error .valueError ∧
    PyError.valueError ≠ PyError.parseError ∧
    parse_batch [fragEx, fragNoDigit, fragEx] = .error .valueError := by
  decide

/-- C5: a fragment missing the price element fails with `ParseError` and
produces no Listing, but the extraction dichotomy claimed by the spec does
not hold in the code: a fragment whose price text is non-empty and
digitless (`fragNA`, price text `N/A`) makes extraction raise the builtin
`ValueError`, which is neither a Listing nor the typed extraction error. -/
theorem C5_missing_price_and_error_kind :
    parse_listing_with_soup fragNoPrice = .error .parseError ∧
    parse_listing_with_soup fragNA = .error .valueError ∧
    PyError.valueError ≠ PyError.parseError := by
  decide

/-- C3: in the batch loop of `fetch_marketplace_listings`, a fragment whose
extraction fails with the typed extraction error (`ParseError`) is skipped
and every other fragment's result is unaffected; in particular, with 3
fragments where the 2nd fails extraction with `ParseError`, the result is
exactly the Listings of the 1st and 3rd, in that order. -/
theorem C3_parse_error_is_skipped :
    (∀ (xs ys : List Fragment) (f : Fragment),
      parse_listing_with_soup f = .error .parseError →
      parse_batch (xs ++ f :: ys) = parse_batch (xs ++ ys)) ∧
    (∀ (f1 f2 f3 : Fragment) (l1 l3 : Listing),
      parse_listing_with_soup f1 = .ok l1 →
      parse_listing_with_soup f2 = .error .parseError →
      parse_listing_with_soup f3 = .ok l3 →
      parse_batch [f1, f2, f3] = .ok [l1, l3]) := by
  have skip : ∀ (xs ys : List Fragment) (f : Fragment),
      parse_listing_with_soup f = .error .parseError →
      parse_batch (xs ++ f :: ys) = parse_batch (xs ++ ys) := by
    intro xs ys f hf
    induction xs with
    | nil => simp [parse_batch, hf]
    | cons x xs ih =>
      simp only [List.cons_append, parse_batch, List.append_eq]
      rw [ih]
  refine ⟨skip, fun f1 f2 f3 l1 l3 h1 h2 h3 => ?_⟩
  simp [parse_batch, h1, h2, h3, Except.map]

/-- Witness for C3: both conjuncts at the concrete fragments (the 2nd has
its price element missing, hence fails with `ParseError`). -/
theorem C3_parse_error_is_skipped_witness :
    parse_batch ([fragEx] ++ fragNoPrice :: [fragEx]) =
      parse_batch ([fragEx] ++ [fragEx]) ∧
    parse_batch [fragEx, fragNoPrice, fragEx] = .ok [exListing, exListing] :=
  ⟨C3_parse_error_is_skipped.1 [fragEx] [fragEx] fragNoPrice (by decide),
   C3_parse_error_is_skipped.2 fragEx fragNoPrice fragEx exListing exListing
     (by decide) (by decide) (by decide)⟩

/-- C4: for every request descriptor, a resource type in the fixed blocked
list forces `block` regardless of the URL; otherwise a URL containing any
of the fixed blocked substrings (case-sensitive contiguous substring)
forces `block`; otherwise the filter decides `allow`. -/
theorem C4_filter_policy (r : Request) :
    (r.resource_type ∈ BLOCK_RESOURCE_TYPES → blocking_intercept r = .block) ∧
    (r.resource_type ∉ BLOCK_RESOURCE_TYPES →
      (∃ key ∈ BLOCK_RESOURCE_NAMES, key <:+: r.url) →
      blocking_intercept r = .block) ∧
    (r.resource_type ∉ BLOCK_RESOURCE_TYPES →
      (∀ key ∈ BLOCK_RESOURCE_NAMES, ¬key <:+: r.url) →
      blocking_intercept r = .allow) := by
  refine ⟨fun ht => ?_, fun ht hkey => ?_, fun ht hkey => ?_⟩
  · simp [blocking_intercept, ht]
  · obtain ⟨key, hmem, hinf⟩ := hkey
    have hany : BLOCK_RESOURCE_NAMES.any (fun key => decide (key <:+: r.url)) = true :=
      List.any_eq_true.mpr ⟨key, hmem, by simpa using hinf⟩
    simp [blocking_intercept, ht, hany]
  · have hany : BLOCK_RESOURCE_NAMES.any (fun key => decide (key <:+: r.url)) = false := by
      rw [List.any_eq_false]
      intro key hmem
      simpa using hkey key hmem
    simp [blocking_intercept, ht, hany]

/-- Witness for C4: a blocked type with a harmless URL, an allowed type
with a tracking URL, and an allowed type with a clean URL. -/
theorem C4_filter_policy_witness :
    blocking_intercept
      { resource_type := "image".toList, url := "https://x.example/a.png".toList } =
      .block ∧
    blocking_intercept
      { resource_type := "document".toList,
        url := "https://static.doubleclick.net/a.js".toList } = .block ∧
    blocking_intercept
      { resource_type := "document".toList,
        url := "https://www.facebook.com/marketplace".toList } = .allow :=
  ⟨(C4_filter_policy _).1 (by decide),
   (C4_filter_policy _).2.1 (by decide)
     ⟨"doubleclick".toList, by decide, by decide⟩,
   (C4_filter_policy _).2.2 (by decide) (by decide)⟩

theorem truthyS_getD (o : Option PyStr) (h : truthyS o = true) : o.getD [] ≠ [] := by
  cases o with
  | none => simp [truthyS] at h
  | some s =>
    cases s with
    | nil => simp [truthyS] at h
    | cons a as => simp

theorem convert_price_nonneg (s : PyStr) (n : Int)
    (h : convert_price_to_int s = .ok n) : 0 ≤ n := by
  unfold convert_price_to_int at h
  split at h
  · simp at h
  · simp only [Except.ok.injEq] at h
    subst h
    exact Int.ofNat_nonneg _

theorem price_of_ok_nonneg (frag : Fragment) (n : Int)
    (h : price_of frag = .ok (some n)) : 0 ≤ n := by
  unfold price_of at h
  split at h
  · simp at h
  · rename_i s heq
    split at h
    · simp at h
    · cases hc : convert_price_to_int s with
      | error e => rw [hc] at h; simp [Except.map] at h
      | ok m =>
        rw [hc] at h
        simp only [Except.map, Except.ok.injEq, Option.some.injEq] at h
        subst h
        exact convert_price_nonneg s m hc

/-- C9: every Listing that extraction constructs satisfies the data-model
invariant: the five required fields are non-empty, the price is a
non-negative integer, and `description` is absent at construction.
Extraction (line 333) is the only place the code constructs a Listing. -/
theorem C9_constructed_listing_invariant (frag : Fragment) (l : Listing)
    (h : parse_listing_with_soup frag = .ok l) :
    l.image_url ≠ [] ∧ l.title ≠ [] ∧ 0 ≤ l.price ∧
    l.post_url ≠ [] ∧ l.location ≠ [] ∧ l.description = none := by
  unfold parse_listing_with_soup at h
  split at h
  · simp at h
  · split at h
    · simp at h
    · split at h
      · simp at h
      · split at h
        · rename_i x1 image himg x2 price hpr x3 link hlk hc
          simp only [Except.ok.injEq] at h
          subst h
          simp only [Bool.and_eq_true] at hc
          obtain ⟨⟨⟨⟨h1, h2⟩, h3⟩, h4⟩, h5⟩ := hc
          refine ⟨truthyS_getD _ h1, truthyS_getD _ h2, ?_,
            truthyS_getD _ h4, truthyS_getD _ h5, rfl⟩
          cases price with
          | none => simp [truthyI] at h3
          | some n => exact price_of_ok_nonneg frag n hpr
        · simp at h

/-- Witness for C9 at the worked-example fragment. -/
theorem C9_constructed_listing_invariant_witness :
    exListing.image_url ≠ [] ∧ exListing.title ≠ [] ∧ 0 ≤ exListing.price ∧
    exListing.post_url ≠ [] ∧ exListing.location ≠ [] ∧
    exListing.description = none :=
  C9_constructed_listing_invariant fragEx exListing (by decide)

/-- Counterexample to C2 as stated: on `fragZero` all five lookups find a
node, every extracted value is non-empty after trimming, and the price text
`$0` contains a digit, yet extraction raises `ParseError` instead of
returning a Listing, because the parsed price `0` is falsy in the
`if not all([image, title, price, link, location])` check. -/
theorem C2_counterexample_zero_price :
    image_of fragZero = .ok (some "https://cdn.example/img.jpg".toList) ∧
    "https://cdn.example/img.jpg".toList ≠ ([] : PyStr) ∧
    title_of fragZero = some "Mountain Bike".toList ∧
    "Mountain Bike".toList ≠ ([] : PyStr) ∧
    price_text_of fragZero = some "$0".toList ∧
    '0' ∈ "$0".toList ∧ Char.isDigit '0' = true ∧
    href_of fragZero = .ok (some "/marketplace/item/42?x=1".toList) ∧
    "/marketplace/item/42?x=1".toList ≠ ([] : PyStr) ∧
    location_of fragZero = some "Toronto, ON".toList ∧
    "Toronto, ON".toList ≠ ([] : PyStr) ∧
    parse_listing_with_soup fragZero = .error .parseError := by
  decide

/-- C2 as amended: when all five lookups find a node, every extracted value
is non-empty after trimming, the price text contains a digit, and the
digits of the price text denote a nonzero integer, extraction succeeds and
returns the fully populated Listing (price the digit value, post_url the
cleaned link, description absent).  With a zero price the code instead
fails with `ParseError` (see the counterexample), so zero must be
excluded. -/
theorem C2_extraction_success (frag : Fragment) (img ttl pr lnk loc : PyStr)
    (himg : image_of frag = .ok (some img)) (himg0 : img ≠ [])
    (httl : title_of frag = some ttl) (httl0 : ttl ≠ [])
    (hpr : price_text_of frag = some pr)
    (hprd : pr.filter Char.isDigit ≠ [])
    (hprz : Nat.ofDigits 10 (((pr.filter Char.isDigit).map digitVal).reverse) ≠ 0)
    (hlnk : href_of frag = .ok (some lnk)) (hlnk0 : lnk ≠ [])
    (hloc : location_of frag = some loc) (hloc0 : loc ≠ []) :
    parse_listing_with_soup frag =
      .ok { image_url := img, title := ttl,
            price := Int.ofNat
              (Nat.ofDigits 10 (((pr.filter Char.isDigit).map digitVal).reverse)),
            post_url := clean_listing_url lnk,
            location := loc, description := none } := by
  have hprE : pr.isEmpty = false := by
    cases pr with
    | nil => simp at hprd
    | cons a as => rfl
  have hpof : price_of frag =
      .ok (some (Int.ofNat
        (Nat.ofDigits 10 (((pr.filter Char.isDigit).map digitVal).reverse)))) := by
    unfold price_of
    simp only [hpr, hprE, Bool.false_eq_true, if_false,
      convert_price_eq_ofDigits pr hprd, Except.map]
  have hlnkE : lnk.isEmpty = false := by
    cases lnk with
    | nil => exact absurd rfl hlnk0
    | cons a as => rfl
  have hlof : link_of frag = .ok (some (clean_listing_url lnk)) := by
    unfold link_of
    simp only [hlnk, Except.map, hlnkE, Bool.false_eq_true, if_false]
  have t1 : truthyS (some img) = true := by
    cases img with
    | nil => exact absurd rfl himg0
    | cons a as => rfl
  have t2 : truthyS (some ttl) = true := by
    cases ttl with
    | nil => exact absurd rfl httl0
    | cons a as => rfl
  have t4 : truthyS (some (clean_listing_url lnk)) = true := rfl
  have t5 : truthyS (some loc) = true := by
    cases loc with
    | nil => exact absurd rfl hloc0
    | cons a as => rfl
  unfold parse_listing_with_soup
  simp only [himg, hpof, hlof, httl, hloc]
  simp [t1, t2, t4, t5, truthyI, Int.natCast_eq_zero, hprz]

/-- Witness for C2 at the spec's worked example: price text `$500` and
relative link `/marketplace/item/42?x=1` yield price 500, the cleaned
post_url, and an absent description. -/
theorem C2_extraction_success_witness :
    parse_listing_with_soup fragEx = .ok exListing := by
  have h := C2_extraction_success fragEx
    "https://cdn.example/img.jpg".toList "Mountain Bike".toList "$500".toList
    "/marketplace/item/42?x=1".toList "Toronto, ON".toList
    (by decide) (by decide) (by decide) (by decide) (by decide) (by decide)
    (by decide) (by decide) (by decide) (by decide) (by decide)
  rw [h]
  decide

theorem listing_dict_fields (l : Listing) :
    (listing_dict l).map Prod.fst = JSON_KEYS ∧
    jLookup "image_url".toList (listing_dict l) = some (.str l.image_url) ∧
    jLookup "title".toList (listing_dict l) = some (.str l.title) ∧
    jLookup "price".toList (listing_dict l) = some (.num l.price) ∧
    jLookup "post_url".toList (listing_dict l) = some (.str l.post_url) ∧
    jLookup "location".toList (listing_dict l) = some (.str l.location) ∧
    jLookup "description".toList (listing_dict l) =
      some (match l.description with
            | none => JVal.null
            | some d => JVal.str d) :=
  ⟨rfl, rfl, rfl, rfl, rfl, rfl, rfl⟩

/-- C8: the serialized document is an array with one mapping per Listing,
in the original order; every mapping has exactly the keys `image_url,
title, price, post_url, location, description` in that order, with values
identical to the Listing's fields; an unset `description` appears as JSON
null (`json.dumps` maps Python `None` to `null`, never to the string
`"None"`). -/
theorem C8_serialization_document (ls : List Listing) :
    jArrLen (listings_to_json ls) = some ls.length ∧
    ∀ i, i < ls.length → ∀ l, ls[i]? = some l →
      (jObjAt (listings_to_json ls) i).map (fun kvs => kvs.map Prod.fst) =
        some JSON_KEYS ∧
      (jObjAt (listings_to_json ls) i).bind (jLookup "image_url".toList) =
        some (.str l.image_url) ∧
      (jObjAt (listings_to_json ls) i).bind (jLookup "title".toList) =
        some (.str l.title) ∧
      (jObjAt (listings_to_json ls) i).bind (jLookup "price".toList) =
        some (.num l.price) ∧
      (jObjAt (listings_to_json ls) i).bind (jLookup "post_url".toList) =
        some (.str l.post_url) ∧
      (jObjAt (listings_to_json ls) i).bind (jLookup "location".toList) =
        some (.str l.location) ∧
      (jObjAt (listings_to_json ls) i).bind (jLookup "description".toList) =
        some (match l.description with
              | none => JVal.null
              | some d => JVal.str d) := by
  refine ⟨by simp [listings_to_json, jArrLen], ?_⟩
  intro i hi l hl
  have hob : jObjAt (listings_to_json ls) i = some (listing_dict l) := by
    unfold jObjAt listings_to_json
    change (List.map (fun l => JVal.obj (listing_dict l)) ls)[i]?.bind _ =
      some (listing_dict l)
    rw [List.getElem?_map, hl]
    rfl
  rw [hob]
  have hf := listing_dict_fields l
  exact ⟨congrArg some hf.1, hf.2.1, hf.2.2.1, hf.2.2.2.1,
    hf.2.2.2.2.1, hf.2.2.2.2.2.1, hf.2.2.2.2.2.2⟩

/-- Witness for C8 at a one-element list whose Listing has an unset
description: the document is a one-object array, the object's keys are
exactly the six field names, and the description value is JSON null. -/
theorem C8_serialization_document_witness :
    jArrLen (listings_to_json [exListing]) = some 1 ∧
    (jObjAt (listings_to_json [exListing]) 0).map (fun kvs => kvs.map Prod.fst) =
      some JSON_KEYS ∧
    (jObjAt (listings_to_json [exListing]) 0).bind (jLookup "price".toList) =
      some (.num 500) ∧
    (jObjAt (listings_to_json [exListing]) 0).bind (jLookup "description".toList) =
      some JVal.null := by
  have h := C8_serialization_document [exListing]
  have h2 := h.2 0 (by decide) exListing rfl
  exact ⟨h.1, h2.1, h2.2.2.2.1, h2.2.2.2.2.2.2⟩
